import Mathlib

/-!
Shallow embedding of `src/engineered_chatgpt_prompts.py` (the single source
file of the repository) and proofs of the specification claims about it.

Modelling conventions:
* The file system is a map from paths to file contents (`FS`); `none` means
  the file does not exist.  `open(p, 'r')` succeeds exactly when the map is
  `some`, and raising `FileNotFoundError` is modelled by returning
  `PyError.notFoundError p`.
* The specification's error taxonomy is used for the constructors: the two
  argument-conflict `raise Exception(...)` sites in `check_arguments` are
  `validationError` (with the source's message), missing files are
  `notFoundError`, and a failing OpenAI call is `networkError`.
* The single observable side effect the claims talk about is the outbound
  network call of `get_completion`; functions return an `Event` trace
  recording each call together with the exact prompt sent.
* The completion endpoint itself is external, so it is a parameter
  (`complete`), as is the external `utils/serialize_dir.sh` collaborator
  (`serialize`) and the `os.path.exists` oracle (`ex`).
-/

namespace ECP

/-- A file system: maps a path to the contents of the file stored there,
`none` when no file exists at that path. -/
def FS : Type := String → Option String

/-- Errors, following the specification's taxonomy.  `validationError` holds
the message of the corresponding `raise Exception(...)` in `check_arguments`;
`notFoundError` holds the missing path; `networkError` models a failure of
the remote completion call. -/
inductive PyError where
  | validationError (msg : String)
  | notFoundError (path : String)
  | networkError (msg : String)
deriving DecidableEq

/-- Observable side effects: one outbound network call per invocation of
`get_completion`, recorded with the exact prompt string sent. -/
inductive Event where
  | networkCall (prompt : String)
deriving DecidableEq

/-- The prompt construction, exactly the f-string of source lines 156-159
(duplicated verbatim at lines 265-268 inside `process_text`): four literal
segments with the goal text and the body text interpolated. -/
def build_prompt (goal_text : String) (file_text : String) : String :=
  "with the following goal " ++
  "(delimited by triple backticks): ```" ++ goal_text ++ "```" ++
  "process the following text with specified goal" ++
  "(delimited by triple backticks): ```" ++ file_text ++ "```"

/-- Source line 133: `return f"goals/{input}"`. -/
def full_path_goal (input : String) : String := "goals/" ++ input

/-- Source line 137: `return f"utils/file_filters/{input}"`. -/
def full_path_filter (input : String) : String := "utils/file_filters/" ++ input

/-- `process_file(file, goal)` (source lines 140-161): `open(file)` first,
then `open(full_path_goal(goal))`, each raising `FileNotFoundError` when the
path is missing; reads both, builds the prompt and runs `get_completion`.
The returned trace records the network calls performed. -/
def process_file (fs : FS) (complete : String → Except PyError String)
    (file : String) (goal : String) : Except PyError String × List Event :=
  match fs file with
  | none => (Except.error (PyError.notFoundError file), [])
  | some file_text =>
    match fs (full_path_goal goal) with
    | none => (Except.error (PyError.notFoundError (full_path_goal goal)), [])
    | some goal_text =>
      let full_prompt := build_prompt goal_text file_text
      match complete full_prompt with
      | Except.error e => (Except.error e, [Event.networkCall full_prompt])
      | Except.ok r => (Except.ok r, [Event.networkCall full_prompt])

/-- `process_directory(dir, goal, ffilter)` (source lines 164-187).
`tempfile.NamedTemporaryFile(mode='w', delete=False)` creates an empty file
at the fresh path `temp_file_name`; `utils/serialize_dir.sh` (the external
collaborator, modelled by `serialize`) overwrites it with the flattened
directory contents; `process_file` then runs on it.  `os.remove` is the last
statement of the `with` block: it executes only when `process_file` returns
normally, and since the temporary file was created with `delete=False`,
nothing deletes it when an exception propagates out of the block.  Returns
the result, the final file system, and the network-call trace. -/
def process_directory (fs : FS) (complete : String → Except PyError String)
    (serialize : String → String → String) (dir : String) (goal : String)
    (ffilter : String) (temp_file_name : String) :
    Except PyError String × FS × List Event :=
  let fs1 : FS := fun p => if p = temp_file_name then some "" else fs p
  let fs2 : FS := fun p => if p = temp_file_name then some (serialize dir ffilter) else fs1 p
  match process_file fs2 complete temp_file_name goal with
  | (Except.error e, evs) => (Except.error e, fs2, evs)
  | (Except.ok r, evs) =>
    (Except.ok r, (fun p => if p = temp_file_name then none else fs2 p), evs)

/-- The parsed CLI arguments (source lines 76-93): `dir`, `file` and `goal`
default to `None`; `ffilter` defaults to the empty string. -/
structure Args where
  dir : Option String
  file : Option String
  goal : Option String
  ffilter : String

/-- `check_arguments(_args)` (source lines 101-129), with the source's
control flow: the dir/file exclusivity check, then the goal requirement and
goal/filter existence checks, then the dir and file existence checks.  `ex`
is the `os.path.exists` oracle; the returned list records every path passed
to `os.path.exists`, in order, i.e. all file-system I/O performed. -/
def check_arguments (ex : String → Bool) (a : Args) :
    Except PyError Unit × List String :=
  if a.dir.isSome && a.file.isSome then
    (Except.error (PyError.validationError
      "Directory and file arguments are exclusive"), [])
  else
    let step1 : Except PyError Unit × List String :=
      if a.dir.isSome || a.file.isSome then
        match a.goal with
        | none => (Except.error (PyError.validationError
            "Goal argument is required when directory or file is provided"), [])
        | some g =>
          let goal_file := full_path_goal g
          if ex goal_file then
            if a.ffilter.length != 0 then
              let filter_file := full_path_filter a.ffilter
              if ex filter_file then (Except.ok (), [goal_file, filter_file])
              else (Except.error (PyError.notFoundError filter_file),
                    [goal_file, filter_file])
            else (Except.ok (), [goal_file])
          else (Except.error (PyError.notFoundError goal_file), [goal_file])
      else (Except.ok (), [])
    match step1 with
    | (Except.error e, t) => (Except.error e, t)
    | (Except.ok _, t1) =>
      let step2 : Except PyError Unit × List String :=
        match a.dir with
        | some d =>
          if ex d then (Except.ok (), [d])
          else (Except.error (PyError.notFoundError d), [d])
        | none => (Except.ok (), [])
      match step2 with
      | (Except.error e, t2) => (Except.error e, t1 ++ t2)
      | (Except.ok _, t2) =>
        match a.file with
        | some f =>
          if ex f then (Except.ok (), t1 ++ t2 ++ [f])
          else (Except.error (PyError.notFoundError f), t1 ++ t2 ++ [f])
        | none => (Except.ok (), t1 ++ t2)

/-- Which mode the program runs in. -/
inductive Mode where
  | batchDir
  | batchFile
  | interactive
deriving DecidableEq

/-- The `__main__` dispatch (source lines 307-319) after `check_arguments`
returned normally: a directory target selects the batch directory mode, else
a file target selects the batch file mode, else the Qt application starts. -/
def main_mode (a : Args) : Mode :=
  match a.dir with
  | some _ => Mode.batchDir
  | none =>
    match a.file with
    | some _ => Mode.batchFile
    | none => Mode.interactive

/-- The three text areas of the interactive form that `process_text` touches. -/
structure UIState where
  goal_text : String
  input_text : String
  output_text : String

/-- `EngineeredChatgptPrompts.process_text` (source lines 258-271): reads the
input and goal text areas, substitutes the default goal when the goal area
holds fewer than 2 characters, builds the prompt, runs `get_completion`
(which stores the completion into `last_response`) and writes that into the
output area.  Returns the new UI state and the network-call trace. -/
def process_text (complete : String → String) (s : UIState) :
    UIState × List Event :=
  let input_text := s.input_text
  let goal := s.goal_text
  let goal := if goal.length < 2 then "summarize in 2 sentence" else goal
  let full_prompt := build_prompt goal input_text
  let last_response := complete full_prompt
  (⟨s.goal_text, s.input_text, last_response⟩, [Event.networkCall full_prompt])

/-- The fixed part of the prompt: the template that remains when both the
goal text and the body text are empty (the two instruction segments with
their triple-backtick delimiters). -/
def prompt_template : String :=
  "with the following goal (delimited by triple backticks): ``````process the following text with specified goal(delimited by triple backticks): ``````"

/-- A sample file system holding an input file and a goal file, used to
instantiate theorems at concrete inputs. -/
def sample_fs : FS := fun p =>
  if p = "input.txt" then some "BODY"
  else if p = "goals/g.txt" then some "GOAL"
  else none

/-- A completion client that always succeeds. -/
def sample_complete : String → Except PyError String := fun _ => Except.ok "RESULT"

/-- The empty file system: no file exists. -/
def empty_fs : FS := fun _ => none

/-- A file system holding only the goal file `goals/g.txt`, used for the
directory-processing scenario. -/
def goal_only_fs : FS := fun p =>
  if p = "goals/g.txt" then some "GOAL" else none

/-- A completion client that always fails with a network error. -/
def failing_complete : String → Except PyError String :=
  fun _ => Except.error (PyError.networkError "connection failed")

/-- An external `serialize_dir.sh` collaborator producing a fixed flattened
representation. -/
def sample_serialize : String → String → String := fun _ _ => "FLATTENED"

/-- Sanity: the template is exactly `build_prompt` applied to empty goal and
empty body. -/
theorem prompt_template_eq_build_prompt_empty :
    prompt_template = build_prompt "" "" := rfl

/-- C1: for every goal string and body string, the prompt built by the
program equals the literal concatenation of the two instruction segments
with the goal and the body interpolated, with no escaping of backticks;
moreover both `process_file` (given files with those contents) and the
interactive `process_text` (given a goal area of at least 2 characters)
send exactly that string to the completion client. -/
theorem prompt_is_literal_concatenation (g b : String) :
    build_prompt g b =
      "with the following goal (delimited by triple backticks): ```" ++ g ++
        "```process the following text with specified goal(delimited by triple backticks): ```" ++
        b ++ "```" ∧
    (∀ (fs : FS) (complete : String → Except PyError String) (file goal : String),
      fs file = some b → fs (full_path_goal goal) = some g →
      (process_file fs complete file goal).2 = [Event.networkCall (build_prompt g b)]) ∧
    (∀ (complete : String → String) (s : UIState),
      s.goal_text = g → s.input_text = b → 2 ≤ g.length →
      (process_text complete s).2 = [Event.networkCall (build_prompt g b)]) := by
  refine ⟨?_, ?_, ?_⟩
  · apply String.ext
    simp [build_prompt, String.data_append, List.append_assoc]
  · intro fs complete file goal h1 h2
    cases hc : complete (build_prompt g b) <;>
      simp [process_file, h1, h2, build_prompt] at hc ⊢ <;>
      simp [hc]
  · intro complete s hg hb hlen
    have hlt : ¬ (g.length < 2) := by omega
    simp [process_text, hg, hb, hlt]

/-- Witness for C1 at concrete inputs. -/
theorem prompt_is_literal_concatenation_witness :
    (process_file sample_fs sample_complete "input.txt" "g.txt").2 =
      [Event.networkCall (build_prompt "GOAL" "BODY")] ∧
    (process_text (fun _ => "OUT") ⟨"my goal", "BODY", ""⟩).2 =
      [Event.networkCall (build_prompt "my goal" "BODY")] :=
  ⟨(prompt_is_literal_concatenation "GOAL" "BODY").2.1 sample_fs sample_complete
      "input.txt" "g.txt" rfl rfl,
   (prompt_is_literal_concatenation "my goal" "BODY").2.2 (fun _ => "OUT")
      ⟨"my goal", "BODY", ""⟩ rfl rfl (by decide)⟩

/-- C2 (divergence witness): at a concrete invocation where the completion
call fails, `process_directory` propagates the error and the temporary
flattened file is still present in the resulting file system: `os.remove`
is only reached when `process_file` returns normally, and the temporary
file was created with `delete=False`, so nothing removes it on failure. -/
theorem process_directory_leaves_temp_file_on_failed_completion :
    (process_directory goal_only_fs failing_complete sample_serialize
        "/some/dir" "g.txt" "" "/tmp/tmpabc123").1 =
      Except.error (PyError.networkError "connection failed") ∧
    (process_directory goal_only_fs failing_complete sample_serialize
        "/some/dir" "g.txt" "" "/tmp/tmpabc123").2.1 "/tmp/tmpabc123" =
      some "FLATTENED" := by
  constructor <;> rfl

/-- C3: whenever the resolved goal file does not exist, `process_file`
fails with a `NotFoundError` (for the input file or for the goal file,
whichever `open` hits first) and the network-call trace is empty: the
completion client is never invoked. -/
theorem process_file_missing_goal_fails_without_network (fs : FS)
    (complete : String → Except PyError String) (file goal : String)
    (h : fs (full_path_goal goal) = none) :
    (∃ p, (process_file fs complete file goal).1 =
        Except.error (PyError.notFoundError p)) ∧
    (process_file fs complete file goal).2 = [] := by
  cases hf : fs file with
  | none =>
    exact ⟨⟨file, by simp [process_file, hf]⟩, by simp [process_file, hf]⟩
  | some ft =>
    exact ⟨⟨full_path_goal goal, by simp [process_file, hf, h]⟩,
      by simp [process_file, hf, h]⟩

/-- Witness for C3 at a concrete input. -/
theorem process_file_missing_goal_witness :
    empty_fs (full_path_goal "g.txt") = none ∧
    ((∃ p, (process_file empty_fs sample_complete "input.txt" "g.txt").1 =
        Except.error (PyError.notFoundError p)) ∧
      (process_file empty_fs sample_complete "input.txt" "g.txt").2 = []) :=
  ⟨rfl, process_file_missing_goal_fails_without_network empty_fs sample_complete
    "input.txt" "g.txt" rfl⟩

/-- C4: when both a directory target and a file target are supplied,
`check_arguments` fails with the exclusivity `ValidationError` and the list
of paths passed to `os.path.exists` is empty: no file I/O happens before the
failure (and `check_arguments` performs no network call at all), regardless
of the goal and filter arguments. -/
theorem check_arguments_both_targets_validation (ex : String → Bool) (a : Args)
    (hd : a.dir.isSome = true) (hf : a.file.isSome = true) :
    check_arguments ex a =
      (Except.error (PyError.validationError
        "Directory and file arguments are exclusive"), []) := by
  unfold check_arguments
  simp [hd, hf]

/-- Witness for C4 at a concrete argument set. -/
theorem check_arguments_both_targets_witness :
    (Args.mk (some "d") (some "f") (some "g.txt") "flt").dir.isSome = true ∧
    check_arguments (fun _ => true) ⟨some "d", some "f", some "g.txt", "flt"⟩ =
      (Except.error (PyError.validationError
        "Directory and file arguments are exclusive"), []) :=
  ⟨rfl, check_arguments_both_targets_validation (fun _ => true)
    ⟨some "d", some "f", some "g.txt", "flt"⟩ rfl rfl⟩

/-- C5: supplying a directory or a file target without a goal makes
`check_arguments` fail with a `ValidationError` (either the exclusivity
message when both targets are present, or the missing-goal message). -/
theorem check_arguments_target_without_goal_validation (ex : String → Bool)
    (a : Args) (h : a.dir.isSome = true ∨ a.file.isSome = true)
    (hg : a.goal = none) :
    ∃ msg, (check_arguments ex a).1 = Except.error (PyError.validationError msg) := by
  unfold check_arguments
  by_cases hb : (a.dir.isSome && a.file.isSome) = true
  · exact ⟨"Directory and file arguments are exclusive", by simp [hb]⟩
  · have hor : (a.dir.isSome || a.file.isSome) = true := by
      rcases h with h | h <;> simp [h]
    exact ⟨"Goal argument is required when directory or file is provided",
      by simp [hb, hor, hg]⟩

/-- Witness for C5 at a concrete argument set. -/
theorem check_arguments_target_without_goal_witness :
    ((Args.mk (some "d") none none "").dir.isSome = true ∨
      (Args.mk (some "d") none none "").file.isSome = true) ∧
    (Args.mk (some "d") none none "").goal = none ∧
    ∃ msg, (check_arguments (fun _ => true) ⟨some "d", none, none, ""⟩).1 =
      Except.error (PyError.validationError msg) :=
  ⟨Or.inl rfl, rfl, check_arguments_target_without_goal_validation
    (fun _ => true) ⟨some "d", none, none, ""⟩ (Or.inl rfl) rfl⟩

/-- C6: when the goal area holds fewer than 2 characters, the interactive
Process action sends the prompt built from the default goal
"summarize in 2 sentence" (never the short goal itself) to the completion
client, and writes the completion result into the output area. -/
theorem process_text_short_goal_uses_default (complete : String → String)
    (s : UIState) (h : s.goal_text.length < 2) :
    (process_text complete s).2 =
      [Event.networkCall (build_prompt "summarize in 2 sentence" s.input_text)] ∧
    (process_text complete s).1.output_text =
      complete (build_prompt "summarize in 2 sentence" s.input_text) := by
  unfold process_text
  simp [h]

/-- Witness for C6: empty goal area and input "Hello world". -/
theorem process_text_short_goal_witness :
    (UIState.mk "" "Hello world" "").goal_text.length < 2 ∧
    ((process_text (fun p => p) ⟨"", "Hello world", ""⟩).2 =
      [Event.networkCall (build_prompt "summarize in 2 sentence" "Hello world")] ∧
     (process_text (fun p => p) ⟨"", "Hello world", ""⟩).1.output_text =
      (fun p => p) (build_prompt "summarize in 2 sentence" "Hello world")) :=
  ⟨by decide, process_text_short_goal_uses_default (fun p => p)
    ⟨"", "Hello world", ""⟩ (by decide)⟩

/-- C7: for non-empty goal and body, the length of the built prompt is the
length of the fixed template plus the lengths of the goal and the body. -/
theorem build_prompt_length (g b : String) (hg : g ≠ "") (hb : b ≠ "") :
    (build_prompt g b).length = prompt_template.length + g.length + b.length := by
  have h1 : ("with the following goal (delimited by triple backticks): ```" :
      String).length = 60 := rfl
  have h2 : ("```" : String).length = 3 := rfl
  have h3 : ("process the following text with specified goal" : String).length = 46 := rfl
  have h4 : ("(delimited by triple backticks): ```" : String).length = 36 := rfl
  have h5 : prompt_template.length = 148 := rfl
  simp [build_prompt, String.length_append, h1, h2, h3, h4, h5]
  omega

/-- Witness for C7 at concrete non-empty inputs. -/
theorem build_prompt_length_witness :
    ("G" : String) ≠ "" ∧ ("B" : String) ≠ "" ∧
    (build_prompt "G" "B").length =
      prompt_template.length + ("G" : String).length + ("B" : String).length :=
  ⟨by decide, by decide, build_prompt_length "G" "B" (by decide) (by decide)⟩

/-- C8: prompt building is pure and deterministic (identical goal and body
strings give the identical output), and the output contains the literal
goal substring and the literal body substring, each enclosed between the
triple-backtick delimiter markers. -/
theorem build_prompt_pure_and_contains (g b gg bb : String)
    (hg : g = gg) (hb : b = bb) :
    build_prompt g b = build_prompt gg bb ∧
    (∃ x y : String, build_prompt g b = x ++ "```" ++ g ++ ("```" ++ y)) ∧
    (∃ x y : String, build_prompt g b = x ++ "```" ++ b ++ ("```" ++ y)) := by
  refine ⟨by rw [hg, hb],
    ⟨"with the following goal (delimited by triple backticks): ",
     "process the following text with specified goal(delimited by triple backticks): ```" ++
       b ++ "```", ?_⟩,
    ⟨"with the following goal (delimited by triple backticks): ```" ++ g ++
       "```process the following text with specified goal(delimited by triple backticks): ",
     "", ?_⟩⟩ <;>
  · apply String.ext
    simp [build_prompt, String.data_append, List.append_assoc]

/-- Witness for C8 at concrete inputs. -/
theorem build_prompt_pure_and_contains_witness :
    build_prompt "GOAL" "BODY" = build_prompt "GOAL" "BODY" ∧
    (∃ x y : String, build_prompt "GOAL" "BODY" = x ++ "```" ++ "GOAL" ++ ("```" ++ y)) ∧
    (∃ x y : String, build_prompt "GOAL" "BODY" = x ++ "```" ++ "BODY" ++ ("```" ++ y)) :=
  build_prompt_pure_and_contains "GOAL" "BODY" "GOAL" "BODY" rfl rfl

/-- C9: the goal-path resolver returns exactly "goals/" prepended to its
input and the filter-path resolver returns exactly "utils/file_filters/"
prepended to its input, for every input string; the result always carries
the fixed prefix and never begins with "/" (so an absolute input is not
accepted unprefixed). -/
theorem full_path_resolvers_fixed_prefix (g : String) :
    full_path_goal g = "goals/" ++ g ∧
    full_path_filter g = "utils/file_filters/" ++ g ∧
    List.IsPrefix ("goals/".data) ((full_path_goal g).data) ∧
    List.IsPrefix ("utils/file_filters/".data) ((full_path_filter g).data) ∧
    ¬ List.IsPrefix ("/".data) ((full_path_goal g).data) ∧
    ¬ List.IsPrefix ("/".data) ((full_path_filter g).data) := by
  refine ⟨rfl, rfl, ⟨g.data, rfl⟩, ⟨g.data, rfl⟩, ?_, ?_⟩
  · rintro ⟨t, ht⟩
    have h2 : some '/' = some 'g' := by
      have h3 : ("/".data ++ t).head? = (full_path_goal g).data.head? := by rw [ht]
      exact h3
    simp at h2
  · rintro ⟨t, ht⟩
    have h2 : some '/' = some 'u' := by
      have h3 : ("/".data ++ t).head? = (full_path_filter g).data.head? := by rw [ht]
      exact h3
    simp at h2

/-- C10: with neither a directory nor a file target, `check_arguments`
succeeds, checks no path for existence (any goal or filter value is
accepted without file I/O), and the main dispatch proceeds to interactive
mode. -/
theorem check_arguments_no_targets_interactive (ex : String → Bool) (a : Args)
    (hd : a.dir = none) (hf : a.file = none) :
    check_arguments ex a = (Except.ok (), []) ∧
    main_mode a = Mode.interactive := by
  constructor
  · unfold check_arguments
    simp [hd, hf]
  · unfold main_mode
    rw [hd, hf]

/-- Witness for C10 at a concrete argument set with a nonexistent goal
path and a nonexistent filter path. -/
theorem check_arguments_no_targets_witness :
    (Args.mk none none (some "no/such/goal.txt") "no/such/filter.sh").dir = none ∧
    (check_arguments (fun _ => false)
        ⟨none, none, some "no/such/goal.txt", "no/such/filter.sh"⟩ =
      (Except.ok (), []) ∧
     main_mode ⟨none, none, some "no/such/goal.txt", "no/such/filter.sh"⟩ =
      Mode.interactive) :=
  ⟨rfl, check_arguments_no_targets_interactive (fun _ => false)
    ⟨none, none, some "no/such/goal.txt", "no/such/filter.sh"⟩ rfl rfl⟩

end ECP
